import Mathlib

/-!
Verification of the `python-data-structures-practice` repository against its
natural-language specification.

The definitions below shallowly embed the Python code of the repository:
Python lists of emails/words become `List String`, Python `set` objects become
`Finset String`, Python floats produced by exact rational arithmetic become `ℚ`.
Where a component of the repository is described by the spec but its script is
not present in the source tree (the exercise generator, the content validator
and the assessment runner of the `framework/` directory exist only as
documentation and templates), the corresponding definitions are modelled from
the spec and say so in their doc comments.
-/

namespace PyDS

/-! ## Exercise 1 of the sets solutions: Email List Cleanup

Embeds the "Basic Approach" and "Optimized Approach" code blocks of the
sets-basics optimized-solutions document (Exercise 1). -/

namespace Ex1Basic

/-- Embeds the manual duplicate-removal loop of the Basic Approach:
`for email in lst: if email not in unique: unique.append(email)`. -/
def uniqueEmails (l : List String) : List String :=
  l.foldl (fun acc e => if e ∈ acc then acc else acc ++ [e]) []

/-- Embeds the manual intersection loop of the Basic Approach:
`for email in newsletter_set: if email in promotion_set: common_emails.append(email)`.
Python iterates the set `newsletter_set = set(unique_newsletter)` in
unspecified order; we enumerate its elements via the deduplicated list, which
carries exactly the same elements. -/
def common_emails (nl pl : List String) : List String :=
  (uniqueEmails nl).filter (fun e => decide (e ∈ uniqueEmails pl))

/-- Embeds the manual difference loop building `newsletter_only`. -/
def newsletter_only (nl pl : List String) : List String :=
  (uniqueEmails nl).filter (fun e => !decide (e ∈ uniqueEmails pl))

/-- Embeds the manual difference loop building `promotion_only`. -/
def promotion_only (nl pl : List String) : List String :=
  (uniqueEmails pl).filter (fun e => !decide (e ∈ uniqueEmails nl))

/-- Embeds `all_unique = set(unique_newsletter + unique_promotion)`. -/
def all_unique (nl pl : List String) : Finset String :=
  (uniqueEmails nl ++ uniqueEmails pl).toFinset

end Ex1Basic

namespace Ex1Optimized

/-- Embeds `common_emails = newsletter_set & promotion_set` where
`newsletter_set = set(newsletter_list)` and `promotion_set = set(promotion_list)`. -/
def common_emails (nl pl : List String) : Finset String :=
  nl.toFinset ∩ pl.toFinset

/-- Embeds `newsletter_only = newsletter_set - promotion_set`. -/
def newsletter_only (nl pl : List String) : Finset String :=
  nl.toFinset \ pl.toFinset

/-- Embeds `promotion_only = promotion_set - newsletter_set`. -/
def promotion_only (nl pl : List String) : Finset String :=
  pl.toFinset \ nl.toFinset

/-- Embeds `all_unique = newsletter_set | promotion_set`. -/
def all_unique (nl pl : List String) : Finset String :=
  nl.toFinset ∪ pl.toFinset

end Ex1Optimized

/-- The manual deduplication loop preserves membership: an email is in the
deduplicated list exactly when it is in the input list. -/
theorem mem_uniqueEmails (l : List String) (e : String) :
    e ∈ Ex1Basic.uniqueEmails l ↔ e ∈ l := by
  suffices h : ∀ acc : List String,
      e ∈ l.foldl (fun acc e => if e ∈ acc then acc else acc ++ [e]) acc ↔
        e ∈ acc ∨ e ∈ l by
    simpa [Ex1Basic.uniqueEmails] using h []
  induction l with
  | nil => simp
  | cons a l ih =>
    intro acc
    rw [List.foldl_cons, ih]
    by_cases ha : a ∈ acc
    · simp only [if_pos ha, List.mem_cons]
      constructor
      · rintro (h | h)
        · exact Or.inl h
        · exact Or.inr (Or.inr h)
      · rintro (h | h | h)
        · exact Or.inl h
        · exact Or.inl (h ▸ ha)
        · exact Or.inr h
    · simp only [if_neg ha, List.mem_append, List.mem_singleton, List.mem_cons]
      tauto

/-- **C8.** For every pair of input lists of email strings, the Basic
(manual-loop) approach of the sets Exercise 1 solution and the Optimized
(set-operator) approach compute the same results as sets: the manually built
`common_emails`, `newsletter_only`, `promotion_only` and `all_unique`
collections contain exactly the emails of
`set(newsletter_list) & set(promotion_list)`,
`set(newsletter_list) - set(promotion_list)`,
`set(promotion_list) - set(newsletter_list)` and
`set(newsletter_list) | set(promotion_list)` respectively. -/
theorem basic_optimized_sets_agree (nl pl : List String) :
    (Ex1Basic.common_emails nl pl).toFinset = Ex1Optimized.common_emails nl pl ∧
    (Ex1Basic.newsletter_only nl pl).toFinset = Ex1Optimized.newsletter_only nl pl ∧
    (Ex1Basic.promotion_only nl pl).toFinset = Ex1Optimized.promotion_only nl pl ∧
    Ex1Basic.all_unique nl pl = Ex1Optimized.all_unique nl pl := by
  refine ⟨?_, ?_, ?_, ?_⟩ <;>
    · ext e
      simp [Ex1Basic.common_emails, Ex1Basic.newsletter_only,
        Ex1Basic.promotion_only, Ex1Basic.all_unique,
        Ex1Optimized.common_emails, Ex1Optimized.newsletter_only,
        Ex1Optimized.promotion_only, Ex1Optimized.all_unique,
        List.mem_filter, mem_uniqueEmails]

/-! ## Exercise 3 of the sets solutions: similarity metrics

Embeds `calculate_similarities` (Optimized Approach) and
`TextAnalyzer._calculate_similarity_metrics` (Advanced Approach). Both
compute the same four metrics over two word sets. Python truthiness of a
set is nonemptiness: `if union` is `union.Nonempty`, `if (set1 or set2)` is
`set1.Nonempty ∨ set2.Nonempty`, `if (set1 and set2)` is
`set1.Nonempty ∧ set2.Nonempty`. The first three metrics are exact rational
divisions and are embedded in `ℚ`. The cosine metric of the source is
`len(intersection) / sqrt(len(set1) * len(set2))`; squaring is injective on
nonnegative reals, so we embed it by its square
`len(intersection)^2 / (len(set1) * len(set2))`, guarded exactly as in the
source; the divisor `len(set1) * len(set2)` is zero exactly when the
source's divisor `sqrt(len(set1) * len(set2))` is. -/

/-- The record of similarity metrics returned by `calculate_similarities`
(cosine represented by its square, see section comment). -/
structure SimilarityMetrics where
  jaccard : ℚ
  dice : ℚ
  overlap : ℚ
  cosineSq : ℚ
  deriving DecidableEq, Repr

/-- Embeds `calculate_similarities(set1, set2)` of the Optimized Approach of
Exercise 3. -/
def calculate_similarities (set1 set2 : Finset String) : SimilarityMetrics :=
  let intersection := set1 ∩ set2
  let union := set1 ∪ set2
  { jaccard := if union.Nonempty then (intersection.card : ℚ) / union.card else 0
    dice := if set1.Nonempty ∨ set2.Nonempty then
        (2 * intersection.card : ℚ) / (set1.card + set2.card) else 0
    overlap := if set1.Nonempty ∧ set2.Nonempty then
        (intersection.card : ℚ) / (min set1.card set2.card) else 0
    cosineSq := if set1.Nonempty ∧ set2.Nonempty then
        ((intersection.card : ℚ) ^ 2) / (set1.card * set2.card) else 0 }

namespace TextAnalyzer

/-- Embeds `TextAnalyzer._calculate_similarity_metrics(set1, set2)` of the
Advanced Approach of Exercise 3: the same four guarded divisions as
`calculate_similarities` (the source differs only in writing
`math.sqrt(x)` for `x**0.5` in the cosine metric). -/
def calculateSimilarityMetrics (set1 set2 : Finset String) : SimilarityMetrics :=
  let intersection := set1 ∩ set2
  let union := set1 ∪ set2
  { jaccard := if union.Nonempty then (intersection.card : ℚ) / union.card else 0
    dice := if set1.Nonempty ∨ set2.Nonempty then
        (2 * intersection.card : ℚ) / (set1.card + set2.card) else 0
    overlap := if set1.Nonempty ∧ set2.Nonempty then
        (intersection.card : ℚ) / (min set1.card set2.card) else 0
    cosineSq := if set1.Nonempty ∧ set2.Nonempty then
        ((intersection.card : ℚ) ^ 2) / (set1.card * set2.card) else 0 }

end TextAnalyzer

/-- **C9.** For every pair of finite sets (including empty ones),
`calculate_similarities` and `TextAnalyzer._calculate_similarity_metrics`
are total and never divide by zero: each guard forces the corresponding
divisor to be nonzero, `jaccard` is `|∩| / |∪|` when the union is nonempty
and `0` otherwise, `dice` is `2|∩| / (|s1| + |s2|)` when at least one set
is nonempty and `0` otherwise, and `overlap` and `cosine` are computed only
when both sets are nonempty and are `0` otherwise; the two functions agree. -/
theorem similarity_metrics_total (s1 s2 : Finset String) :
    TextAnalyzer.calculateSimilarityMetrics s1 s2 = calculate_similarities s1 s2 ∧
    ((s1 ∪ s2).Nonempty → ((s1 ∪ s2).card : ℚ) ≠ 0 ∧
      (calculate_similarities s1 s2).jaccard =
        ((s1 ∩ s2).card : ℚ) / (s1 ∪ s2).card) ∧
    (¬(s1 ∪ s2).Nonempty → (calculate_similarities s1 s2).jaccard = 0) ∧
    (s1.Nonempty ∨ s2.Nonempty → ((s1.card : ℚ) + s2.card) ≠ 0 ∧
      (calculate_similarities s1 s2).dice =
        (2 * (s1 ∩ s2).card : ℚ) / (s1.card + s2.card)) ∧
    (¬(s1.Nonempty ∨ s2.Nonempty) → (calculate_similarities s1 s2).dice = 0) ∧
    (s1.Nonempty ∧ s2.Nonempty → ((min s1.card s2.card : ℚ)) ≠ 0 ∧
      (calculate_similarities s1 s2).overlap =
        ((s1 ∩ s2).card : ℚ) / (min s1.card s2.card)) ∧
    (¬(s1.Nonempty ∧ s2.Nonempty) → (calculate_similarities s1 s2).overlap = 0) ∧
    (s1.Nonempty ∧ s2.Nonempty → ((s1.card : ℚ) * s2.card) ≠ 0 ∧
      (calculate_similarities s1 s2).cosineSq =
        (((s1 ∩ s2).card : ℚ) ^ 2) / (s1.card * s2.card)) ∧
    (¬(s1.Nonempty ∧ s2.Nonempty) → (calculate_similarities s1 s2).cosineSq = 0) := by
  have hcard : ∀ s : Finset String, s.Nonempty → (s.card : ℚ) ≠ 0 := by
    intro s hs
    have : 0 < s.card := Finset.card_pos.mpr hs
    exact_mod_cast this.ne'
  refine ⟨rfl, ?_, ?_, ?_, ?_, ?_, ?_, ?_, ?_⟩
  · intro h
    exact ⟨hcard _ h, by simp [calculate_similarities, if_pos h]⟩
  · intro h
    simp [calculate_similarities, if_neg h]
  · intro h
    refine ⟨?_, by simp [calculate_similarities, if_pos h]⟩
    rcases h with h | h
    · have h1 : (0 : ℚ) < s1.card := by exact_mod_cast Finset.card_pos.mpr h
      have h2 : (0 : ℚ) ≤ s2.card := by positivity
      linarith
    · have h1 : (0 : ℚ) < s2.card := by exact_mod_cast Finset.card_pos.mpr h
      have h2 : (0 : ℚ) ≤ s1.card := by positivity
      linarith
  · intro h
    simp [calculate_similarities, if_neg h]
  · intro h
    refine ⟨?_, by simp [calculate_similarities, if_pos h]⟩
    have h1 : 0 < s1.card := Finset.card_pos.mpr h.1
    have h2 : 0 < s2.card := Finset.card_pos.mpr h.2
    have : 0 < min s1.card s2.card := lt_min h1 h2
    exact_mod_cast this.ne'
  · intro h
    simp [calculate_similarities, if_neg h]
  · intro h
    refine ⟨?_, by simp [calculate_similarities, if_pos h]⟩
    have h1 : (0 : ℚ) < s1.card := by exact_mod_cast Finset.card_pos.mpr h.1
    have h2 : (0 : ℚ) < s2.card := by exact_mod_cast Finset.card_pos.mpr h.2
    positivity
  · intro h
    simp [calculate_similarities, if_neg h]

/-- Witness for C9: on the concrete pair `({"a"}, ∅)` the union is nonempty,
so the jaccard divisor is nonzero and the jaccard metric takes its guarded
division value. -/
theorem similarity_metrics_total_witness :
    (({("a" : String)} : Finset String) ∪ (∅ : Finset String)).Nonempty ∧
    ((((({("a" : String)} : Finset String) ∪ ∅).card : ℚ) ≠ 0) ∧
      (calculate_similarities {"a"} ∅).jaccard =
        (((({("a" : String)} : Finset String) ∩ ∅).card : ℚ) /
          (({("a" : String)} : Finset String) ∪ ∅).card)) :=
  ⟨by simp, (similarity_metrics_total {"a"} ∅).2.1 (by simp)⟩

/-! ## Advanced Approach of sets Exercise 1: `EmailListManager`

Embeds the `EmailListManager` class. Its `lists` attribute is a Python dict
from list names to sets of emails; we embed it as an association list from
`String` to `Finset String`. Python assignment `self.lists[name] = v`
overwrites an existing key or appends a new one (`dictSet`); subscription
`self.lists[name]` raises `KeyError` on a missing key, embedded as `Option`
(`dictGet?`).

In `get_exclusive`, `target = self.lists[target_list]` binds `target` to the
stored set object itself, and `target -= self.lists[exclude]` is an in-place
`difference_update` on that shared object: each iteration of the loop both
updates `target` and overwrites the stored entry, and later reads of
`self.lists[exclude]` see the current (possibly already mutated) state. The
embedding threads the state through the loop accordingly. -/

/-- Association-list embedding of Python dict read `d[name]` (`None` =
`KeyError`). -/
def dictGet? (l : List (String × Finset String)) (name : String) :
    Option (Finset String) :=
  (l.find? (fun p => p.1 == name)).map Prod.snd

/-- Association-list embedding of Python dict write `d[name] = s`. -/
def dictSet (l : List (String × Finset String)) (name : String) (s : Finset String) :
    List (String × Finset String) :=
  if l.any (fun p => p.1 == name) then
    l.map (fun p => if p.1 == name then (p.1, s) else p)
  else
    l ++ [(name, s)]

/-- Embeds Python `str.lower()` (character-wise lowercasing). -/
def pyLower (s : String) : String :=
  ⟨s.data.map Char.toLower⟩

/-- Whitespace predicate of Python `str.strip()`, restricted to the ASCII
whitespace characters (the repository's data is ASCII). -/
def pySpace (c : Char) : Bool :=
  c == ' ' || c == '\t' || c == '\n' || c == '\r'

/-- Embeds Python `str.strip()`: removes leading and trailing whitespace. -/
def pyStrip (s : String) : String :=
  ⟨((s.data.dropWhile pySpace).reverse.dropWhile pySpace).reverse⟩

/-- Embeds the `EmailListManager` object state: its `lists` dict. -/
structure EmailListManager where
  lists : List (String × Finset String)
  deriving DecidableEq

namespace EmailListManager

/-- Embeds `add_list`: `self.lists[name] = set(email.lower().strip() for email in emails)`. -/
def add_list (m : EmailListManager) (name : String) (emails : List String) :
    EmailListManager :=
  ⟨dictSet m.lists name (emails.map (fun e => pyStrip (pyLower e))).toFinset⟩

/-- Embeds `get_exclusive(target_list, *exclude_lists)` including the in-place
mutation semantics of `target -= self.lists[exclude]` described in the section
comment: each loop iteration overwrites the stored entry for `target_list`,
and the returned set is the final value of that entry. Returns `none` when a
dict read raises `KeyError`; otherwise returns the result together with the
manager state after the call. -/
def get_exclusive (m : EmailListManager) (target_list : String)
    (exclude_lists : List String) : Option (Finset String × EmailListManager) := do
  let _ ← dictGet? m.lists target_list
  let final ← exclude_lists.foldlM
    (fun (st : EmailListManager) (excl : String) => do
      let t ← dictGet? st.lists target_list
      let e ← dictGet? st.lists excl
      pure (⟨dictSet st.lists target_list (t \ e)⟩ : EmailListManager)) m
  let result ← dictGet? final.lists target_list
  pure (result, final)

end EmailListManager

/-- Embeds `newsletter_list` of sets Exercise 1. -/
def newsletter_list : List String :=
  ["alice@email.com", "bob@email.com", "charlie@email.com",
   "alice@email.com", "diana@email.com", "bob@email.com"]

/-- Embeds `promotion_list` of sets Exercise 1. -/
def promotion_list : List String :=
  ["bob@email.com", "eve@email.com", "charlie@email.com",
   "frank@email.com", "alice@email.com"]

/-- Embeds the usage block of the Advanced Approach:
`manager = EmailListManager(); manager.add_list("newsletter", newsletter_list);
manager.add_list("promotion", promotion_list)`. -/
def manager : EmailListManager :=
  ((⟨[]⟩ : EmailListManager).add_list "newsletter" newsletter_list).add_list
    "promotion" promotion_list

/-- **C10 (failing input).** Evaluating the code at the usage block's own
data refutes the claim that `get_exclusive` is a pure query: before the call
`self.lists["newsletter"]` holds all four newsletter emails, and after
`get_exclusive("newsletter", "promotion")` returns, the stored entry
`self.lists["newsletter"]` has been shrunk in place to `{diana@email.com}`
by the aliased in-place subtraction. -/
theorem get_exclusive_mutates_state :
    dictGet? manager.lists "newsletter" =
      some ((newsletter_list.map (fun e => pyStrip (pyLower e))).toFinset) ∧
    (newsletter_list.map (fun e => pyStrip (pyLower e))).toFinset =
      (["alice@email.com", "bob@email.com", "charlie@email.com",
        "diana@email.com"] : List String).toFinset ∧
    (manager.get_exclusive "newsletter" ["promotion"]).map
        (fun p => dictGet? p.2.lists "newsletter") =
      some (some ((["diana@email.com"] : List String).toFinset)) ∧
    ((["diana@email.com"] : List String).toFinset ≠
      (["alice@email.com", "bob@email.com", "charlie@email.com",
        "diana@email.com"] : List String).toFinset) := by
  refine ⟨by decide, by decide, by decide, by decide⟩

/-! ## String occurrence machinery

Used to state "the output contains this literal" (generator claims) and the
case-insensitive substring grading of the assessment runner. -/

/-- `occursIn needle haystack`: the string `needle` appears contiguously in
the string `haystack`. -/
def occursIn (needle haystack : String) : Prop :=
  ∃ p q : List Char, haystack.data = p ++ needle.data ++ q

/-- Boolean test: does `hay` start with `needle`? -/
def listStarts : List Char → List Char → Bool
  | [], _ => true
  | _ :: _, [] => false
  | a :: as, b :: bs => a == b && listStarts as bs

/-- Boolean test: does `needle` occur contiguously in `hay`? -/
def listHasSub (needle : List Char) : List Char → Bool
  | [] => needle.isEmpty
  | b :: bs => listStarts needle (b :: bs) || listHasSub needle bs

/-- Executable occurrence test on strings (Python's `needle in haystack`). -/
def strHasSub (haystack needle : String) : Bool :=
  listHasSub needle.data haystack.data

theorem listStarts_iff (n h : List Char) :
    listStarts n h = true ↔ ∃ q, h = n ++ q := by
  induction n generalizing h with
  | nil => simp [listStarts]
  | cons a as ih =>
    cases h with
    | nil =>
      simp [listStarts]
    | cons b bs =>
      rw [listStarts]
      simp only [Bool.and_eq_true, beq_iff_eq, ih]
      constructor
      · rintro ⟨rfl, q, rfl⟩
        exact ⟨q, rfl⟩
      · rintro ⟨q, hq⟩
        cases hq
        exact ⟨rfl, q, rfl⟩

theorem listHasSub_iff (n h : List Char) :
    listHasSub n h = true ↔ ∃ p q, h = p ++ n ++ q := by
  induction h with
  | nil =>
    simp only [listHasSub, List.isEmpty_iff]
    constructor
    · rintro rfl
      exact ⟨[], [], rfl⟩
    · rintro ⟨p, q, hq⟩
      rcases List.append_eq_nil.mp (List.append_eq_nil.mp hq.symm).1 with ⟨-, h2⟩
      exact h2
  | cons b bs ih =>
    rw [listHasSub]
    simp only [Bool.or_eq_true, listStarts_iff, ih]
    constructor
    · rintro (⟨q, hq⟩ | ⟨p, q, rfl⟩)
      · exact ⟨[], q, by simpa using hq⟩
      · exact ⟨b :: p, q, rfl⟩
    · rintro ⟨p, q, hq⟩
      cases p with
      | nil =>
        exact Or.inl ⟨q, by simpa using hq⟩
      | cons c cs =>
        rw [List.cons_append, List.cons_append] at hq
        obtain ⟨rfl, hq⟩ := List.cons_eq_cons.mp hq
        exact Or.inr ⟨cs, q, by simpa using hq⟩

/-- The executable occurrence test decides `occursIn`. -/
theorem strHasSub_iff (haystack needle : String) :
    strHasSub haystack needle = true ↔ occursIn needle haystack := by
  rw [strHasSub, occursIn, listHasSub_iff]

theorem occursIn_refl (s : String) : occursIn s s :=
  ⟨[], [], by simp⟩

theorem occursIn_append_left {n h : String} (s : String) (hn : occursIn n h) :
    occursIn n (h ++ s) := by
  obtain ⟨p, q, hq⟩ := hn
  exact ⟨p, q ++ s.data, by simp [hq]⟩

theorem occursIn_append_right {n h : String} (s : String) (hn : occursIn n h) :
    occursIn n (s ++ h) := by
  obtain ⟨p, q, hq⟩ := hn
  exact ⟨s.data ++ p, q, by simp [hq]⟩

/-! ## Exercise generator (spec-modelled)

The `framework/` directory of the repository documents an exercise generator
script (`framework/generators/exercise_generator.py`, invoked as
`python exercise_generator.py your_config.json`), but the script itself is
not present in the source tree — only its documentation and the solution
template with `{PLACEHOLDER}` slots. The definitions of this section are
therefore modelled from the spec. -/

/-- Modelled from the spec: the exercise configuration, a "flat key-value
record (topic name, difficulty, list of task strings, sample data literal)"
consumed by the missing `exercise_generator.py`. -/
structure ExerciseConfig where
  topic_name : String
  difficulty_level : String
  tasks : List String
  sample_data : String
  deriving DecidableEq

/-- Modelled from the spec: renders the task list into the output, one task
per line. -/
def renderTasks : List String → String
  | [] => ""
  | t :: rest => "- " ++ t ++ "\n" ++ renderTasks rest

/-- Concatenation of the segments of a filled-in template. -/
def concatAll : List String → String
  | [] => ""
  | s :: rest => s ++ concatAll rest

/-- Modelled from the spec: the fixed notebook skeleton of the missing
`exercise_generator.py`, with the configuration's named placeholders
string-substituted. -/
def notebookSkeleton (cfg : ExerciseConfig) : String :=
  concatAll ["# ", cfg.topic_name, "\n## Difficulty: ", cfg.difficulty_level,
    "\n\n```python\n", cfg.sample_data, "\n```\n\n### Tasks\n",
    renderTasks cfg.tasks]

/-- Modelled from the spec: the fixed solution skeleton of the missing
`exercise_generator.py`, with the configuration's named placeholders
string-substituted. -/
def solutionSkeleton (cfg : ExerciseConfig) : String :=
  concatAll ["# Solutions: ", cfg.topic_name, "\nDifficulty: ",
    cfg.difficulty_level, "\n\nSample data: ", cfg.sample_data,
    "\n\n## Tasks\n", renderTasks cfg.tasks]

/-- Modelled from the spec: the generator "reads a flat configuration record,
string-substitutes named placeholders in two fixed templates (notebook
skeleton, solution skeleton), writes two output files". The run is embedded
as the list of (file name, file content) pairs written. -/
def generate_exercise (cfg : ExerciseConfig) : List (String × String) :=
  [(cfg.topic_name ++ "_exercise.ipynb", notebookSkeleton cfg),
   (cfg.topic_name ++ "_solutions.md", solutionSkeleton cfg)]

/-- Every task string occurs in the rendered task block. -/
theorem occursIn_renderTasks {t : String} :
    ∀ {tasks : List String}, t ∈ tasks → occursIn t (renderTasks tasks) := by
  intro tasks ht
  induction tasks with
  | nil => cases ht
  | cons a rest ih =>
    rcases List.mem_cons.mp ht with rfl | hmem
    · exact occursIn_append_left (renderTasks rest)
        (occursIn_append_left "\n" (occursIn_append_right "- " (occursIn_refl t)))
    · exact occursIn_append_right ("- " ++ a ++ "\n") (ih hmem)

/-- Occurrence composes: if `n` occurs in `m` and `m` occurs in `h`, then
`n` occurs in `h`. -/
theorem occursIn_trans {n m h : String} (h1 : occursIn n m) (h2 : occursIn m h) :
    occursIn n h := by
  obtain ⟨p, q, hpq⟩ := h1
  obtain ⟨p', q', hpq'⟩ := h2
  exact ⟨p' ++ p, q ++ q', by simp [hpq', hpq]⟩

/-- Every segment of a filled-in template occurs in the concatenation. -/
theorem occursIn_concatAll {s : String} :
    ∀ {parts : List String}, s ∈ parts → occursIn s (concatAll parts) := by
  intro parts hs
  induction parts with
  | nil => cases hs
  | cons a rest ih =>
    rcases List.mem_cons.mp hs with rfl | hmem
    · exact occursIn_append_left (concatAll rest) (occursIn_refl s)
    · exact occursIn_append_right a (ih hmem)

/-- **C1.** For every exercise configuration, the generator produces exactly
two output files — a notebook file and a solution file — and every literal
value of the configuration (topic name, difficulty, each task string, sample
data literal) occurs in the content of each of the two output files. -/
theorem generate_exercise_two_files_contain_config (cfg : ExerciseConfig) :
    (generate_exercise cfg).length = 2 ∧
    ∀ f ∈ generate_exercise cfg,
      occursIn cfg.topic_name f.2 ∧ occursIn cfg.difficulty_level f.2 ∧
      occursIn cfg.sample_data f.2 ∧ ∀ t ∈ cfg.tasks, occursIn t f.2 := by
  refine ⟨rfl, ?_⟩
  intro f hf
  have hcases : f = (cfg.topic_name ++ "_exercise.ipynb", notebookSkeleton cfg) ∨
      f = (cfg.topic_name ++ "_solutions.md", solutionSkeleton cfg) := by
    simpa [generate_exercise] using hf
  rcases hcases with rfl | rfl
  · refine ⟨occursIn_concatAll (by simp [notebookSkeleton]), ?_, ?_, ?_⟩
    · exact occursIn_concatAll (by simp [notebookSkeleton])
    · exact occursIn_concatAll (by simp [notebookSkeleton])
    · intro t ht
      exact occursIn_trans (occursIn_renderTasks ht)
        (occursIn_concatAll (by simp [notebookSkeleton]))
  · refine ⟨occursIn_concatAll (by simp [solutionSkeleton]), ?_, ?_, ?_⟩
    · exact occursIn_concatAll (by simp [solutionSkeleton])
    · exact occursIn_concatAll (by simp [solutionSkeleton])
    · intro t ht
      exact occursIn_trans (occursIn_renderTasks ht)
        (occursIn_concatAll (by simp [solutionSkeleton]))

/-- A concrete configuration used as witness input. -/
def sampleConfig : ExerciseConfig :=
  ⟨"Sets Basics", "beginner", ["Task 1"], "emails = []"⟩

/-- Witness for C1: on the concrete sample configuration the generator
emits two files and the notebook file contains the topic name. -/
theorem generate_exercise_two_files_contain_config_witness :
    (generate_exercise sampleConfig).length = 2 ∧
    occursIn sampleConfig.topic_name (notebookSkeleton sampleConfig) := by
  have h := generate_exercise_two_files_contain_config sampleConfig
  refine ⟨h.1, ?_⟩
  have h2 := h.2 (sampleConfig.topic_name ++ "_exercise.ipynb",
    notebookSkeleton sampleConfig) (by simp [generate_exercise])
  exact h2.1

/-- **C2.** The generator is deterministic and idempotent with respect to its
configuration: two runs on the same configuration produce byte-identical
notebook and solution files. The embedded run depends on nothing but the
configuration record — it reads no clock and draws no randomness — so equal
configurations yield equal output file lists. -/
theorem generate_exercise_deterministic (cfg1 cfg2 : ExerciseConfig)
    (h : cfg1 = cfg2) : generate_exercise cfg1 = generate_exercise cfg2 := by
  rw [h]

/-- Witness for C2: both runs on the sample configuration of the framework
usage guide produce the same two files. -/
theorem generate_exercise_deterministic_witness :
    generate_exercise ⟨"Deques Advanced", "intermediate",
        ["Create task queue", "Process from both ends"], "data = [1, 2, 3]"⟩ =
      generate_exercise ⟨"Deques Advanced", "intermediate",
        ["Create task queue", "Process from both ends"], "data = [1, 2, 3]"⟩ :=
  generate_exercise_deterministic _ _ rfl

/-! ## Content validator (spec-modelled)

The repository documents a content validator script
(`framework/validation/content_validator.py`) that "parses notebook JSON,
applies a fixed list of independent structural checks (cell length
thresholds, presence of markers), accumulates pass/warn/fail results per
check, writes a summary report"; the script itself is not present in the
source tree, so the definitions of this section are modelled from the spec
and from the structural rules the framework documentation states
(title/header cell, `TODO` markers in code cells, 20-line maximum cell
length). -/

/-- Modelled from the spec: a notebook cell is markdown or code. -/
inductive CellType
  | markdown
  | code
  deriving DecidableEq

/-- Modelled from the spec: a cell is a cell type together with an ordered
list of text lines. -/
structure Cell where
  cellType : CellType
  sourceLines : List String
  deriving DecidableEq

/-- Modelled from the spec: a notebook document is a sequence of cells. -/
structure Notebook where
  cells : List Cell
  deriving DecidableEq

/-- Modelled from the spec: required structural element — the notebook opens
with a markdown title cell whose first line is a `# ` header. -/
def hasTitleCell (nb : Notebook) : Bool :=
  match nb.cells with
  | [] => false
  | c :: _ =>
    decide (c.cellType = CellType.markdown) &&
      (match c.sourceLines with
       | [] => false
       | l :: _ => strHasSub l "# ")

/-- Modelled from the spec: required structural element — some code cell
line carries a `TODO` marker. -/
def hasTodoMarker (nb : Notebook) : Bool :=
  nb.cells.any fun c =>
    decide (c.cellType = CellType.code) &&
      c.sourceLines.any (fun l => strHasSub l "TODO")

/-- Modelled from the spec: required structural element — every cell stays
within the 20-line threshold of the framework's design guidelines. -/
def cellsWithinLimit (nb : Notebook) : Bool :=
  nb.cells.all fun c => c.sourceLines.length ≤ 20

/-- Modelled from the spec: the fixed list of independent structural checks
of the missing `content_validator.py`, each paired with the error kind it
reports. -/
def checkList : List (String × (Notebook → Bool)) :=
  [("missing_title_cell", hasTitleCell),
   ("missing_todo_marker", hasTodoMarker),
   ("cell_too_long", cellsWithinLimit)]

/-- Modelled from the spec: the validator applies every check and reports
the error kinds of the failing ones. -/
def validate_notebook (nb : Notebook) : List String :=
  (checkList.filter (fun c => !(c.2 nb))).map Prod.fst

/-- **C3.** A notebook missing exactly one required structural element gets
exactly one reported error, of the kind corresponding to the missing
element (stated for each of the three required elements); a known-good
notebook, with all required elements present, gets zero errors. -/
theorem validate_notebook_single_error (nb : Notebook) :
    (hasTitleCell nb = false → hasTodoMarker nb = true → cellsWithinLimit nb = true →
      validate_notebook nb = ["missing_title_cell"]) ∧
    (hasTitleCell nb = true → hasTodoMarker nb = false → cellsWithinLimit nb = true →
      validate_notebook nb = ["missing_todo_marker"]) ∧
    (hasTitleCell nb = true → hasTodoMarker nb = true → cellsWithinLimit nb = false →
      validate_notebook nb = ["cell_too_long"]) ∧
    (hasTitleCell nb = true → hasTodoMarker nb = true → cellsWithinLimit nb = true →
      validate_notebook nb = []) := by
  refine ⟨?_, ?_, ?_, ?_⟩ <;>
    · intro h1 h2 h3
      simp [validate_notebook, checkList, h1, h2, h3]

/-- A notebook whose only flaw is the missing title cell. -/
def noTitleNotebook : Notebook :=
  ⟨[⟨CellType.markdown, ["Just some text"]⟩,
    ⟨CellType.code, ["# TODO: implement this"]⟩]⟩

/-- Witness for C3: on a concrete notebook missing exactly the title cell,
the validator reports exactly the one corresponding error. -/
theorem validate_notebook_single_error_witness :
    validate_notebook noTitleNotebook = ["missing_title_cell"] :=
  (validate_notebook_single_error noTitleNotebook).1 (by decide) (by decide)
    (by decide)

/-! ## Assessment runner (spec-modelled)

The repository documents an interactive assessment template
(`framework/content_types/assessments/assessment_template.py` with
`Assessment` and `Question` classes and a `take_assessment` method); the
script itself is not present in the source tree, so the definitions of this
section are modelled from the spec: the runner "iterates a static question
list, captures an answer per question, compares against a stored correct
answer (exact match for multiple-choice, case-insensitive
substring/equality for short answer), accumulates a score, prints a
summary". -/

/-- Modelled from the spec: the question type tag. -/
inductive QuestionType
  | multiple_choice
  | short_answer
  deriving DecidableEq

/-- Modelled from the spec: an assessment question record — id, prompt text,
type tag, option list, correct answer, explanation. -/
structure Question where
  id : String
  question : String
  question_type : QuestionType
  options : List String
  correct_answer : String
  explanation : String
  deriving DecidableEq

/-- Modelled from the spec: grading one captured answer — exact match for a
multiple-choice question, case-insensitive substring-or-equality comparison
with the stored correct answer for a short-answer question. -/
def is_correct (q : Question) (answer : String) : Bool :=
  match q.question_type with
  | QuestionType.multiple_choice => answer == q.correct_answer
  | QuestionType.short_answer =>
      pyLower answer == pyLower q.correct_answer ||
        strHasSub (pyLower answer) (pyLower q.correct_answer)

/-- Modelled from the spec: the state of a linear quiz session — the static
question list, the accumulated score, and the number of questions asked. -/
structure QuizState where
  questions : List Question
  score : Nat
  asked : Nat
  deriving DecidableEq

/-- Modelled from the spec: one step of the session loop — grade the captured
answer, accumulate the score, move on. -/
def quizStep (st : QuizState) (qa : Question × String) : QuizState :=
  { st with
    score := st.score + (if is_correct qa.1 qa.2 then 1 else 0)
    asked := st.asked + 1 }

/-- Modelled from the spec: a full session of the missing
`assessment_template.py` — iterate the question list with one captured
answer per question, then compute the final percentage score
`score / len(questions) * 100`. Returns the final state and the score. -/
def take_assessment (questions : List Question) (answers : List String) :
    QuizState × ℚ :=
  let final := (questions.zip answers).foldl quizStep ⟨questions, 0, 0⟩
  (final, (final.score : ℚ) / questions.length * 100)

/-- The accumulated score of the session loop equals the count of correctly
answered question/answer pairs. -/
theorem foldl_quizStep_score (l : List (Question × String)) (st : QuizState) :
    (l.foldl quizStep st).score =
      st.score + l.countP (fun qa => is_correct qa.1 qa.2) := by
  induction l generalizing st with
  | nil => simp
  | cons qa rest ih =>
    rw [List.foldl_cons, ih, List.countP_cons]
    simp only [quizStep]
    by_cases h : is_correct qa.1 qa.2 = true
    · simp [h]
      omega
    · simp [h]

/-- The session loop never touches the stored question list. -/
theorem foldl_quizStep_questions (l : List (Question × String)) (st : QuizState) :
    (l.foldl quizStep st).questions = st.questions := by
  induction l generalizing st with
  | nil => rfl
  | cons qa rest ih =>
    rw [List.foldl_cons, ih]
    rfl

/-- **C4.** For every fixed question list and fixed sequence of answers, one
answer per question, the assessment runner computes the final score as
`(number of exactly-correct answers / total number of questions) * 100`. -/
theorem take_assessment_score (questions : List Question) (answers : List String)
    (_hlen : answers.length = questions.length) (_hne : 0 < questions.length) :
    (take_assessment questions answers).2 =
      (((questions.zip answers).countP (fun qa => is_correct qa.1 qa.2) : ℚ) /
        questions.length) * 100 := by
  rw [take_assessment]
  simp [foldl_quizStep_score]

/-- A two-question quiz used as concrete witness input. -/
def sampleQuestions : List Question :=
  [⟨"q1", "What does list.append() do?", QuestionType.multiple_choice,
      ["Adds to beginning", "Adds to end", "Removes item"], "Adds to end",
      "append() adds an element to the end of the list"⟩,
   ⟨"q2", "Name the set operator for intersection.", QuestionType.short_answer,
      [], "intersection", "The & operator or .intersection()"⟩]

/-- Witness for C4: on the two-question quiz with one correct and one wrong
answer, the runner's score matches the hand-computed
`(1 / 2) * 100 = 50`. -/
theorem take_assessment_score_witness :
    (["Adds to end", "no idea"].length = sampleQuestions.length ∧
      0 < sampleQuestions.length) ∧
    (take_assessment sampleQuestions ["Adds to end", "no idea"]).2 =
      (((sampleQuestions.zip ["Adds to end", "no idea"]).countP
          (fun qa => is_correct qa.1 qa.2) : ℚ) / sampleQuestions.length) * 100 :=
  ⟨⟨by decide, by decide⟩,
    take_assessment_score sampleQuestions ["Adds to end", "no idea"]
      (by decide) (by decide)⟩

/-- **C5.** The runner judges an answer correct exactly when: for a
multiple-choice question the answer equals the stored correct answer, and
for a short-answer question the lowercased answer equals the lowercased
stored correct answer or contains it as a contiguous substring. -/
theorem is_correct_iff (q : Question) (answer : String) :
    is_correct q answer = true ↔
      match q.question_type with
      | QuestionType.multiple_choice => answer = q.correct_answer
      | QuestionType.short_answer =>
          pyLower answer = pyLower q.correct_answer ∨
            occursIn (pyLower q.correct_answer) (pyLower answer) := by
  cases hq : q.question_type with
  | multiple_choice =>
    simp [is_correct, hq]
  | short_answer =>
    simp [is_correct, hq, strHasSub_iff]

/-- **C7.** A quiz session never modifies the question list or any question
record: the question list carried by the final session state is the input
list itself, so every question's id, prompt, type tag, options, correct
answer and explanation are unchanged. -/
theorem take_assessment_frame (questions : List Question) (answers : List String) :
    (take_assessment questions answers).1.questions = questions := by
  rw [take_assessment]
  exact foldl_quizStep_questions _ _

/-! ## Command-line behaviour of the framework scripts (spec-modelled)

The spec describes the scripts' CLI contract (`script.py <config.json>`,
exit 0 on success, non-zero with a message on missing/invalid input, error
conditions limited to malformed JSON, a missing required configuration
field, and a missing template file). None of the scripts is present in the
source tree, so this section models the contract from the spec for the
exercise generator, whose config fields and templates are documented. -/

/-- Modelled from the spec: the three error conditions of a script run. -/
inductive ScriptError
  | malformed_json
  | missing_field (name : String)
  | missing_template (path : String)
  deriving DecidableEq

/-- Modelled from the spec: the message reported with a non-zero exit. -/
def errorMessage : ScriptError → String
  | ScriptError.malformed_json => "Error: invalid JSON in configuration file"
  | ScriptError.missing_field name => "Error: missing required field: " ++ name
  | ScriptError.missing_template path => "Error: template file not found: " ++ path

/-- Modelled from the spec: what a script invocation sees — the parse result
of the configuration file (`none` models malformed JSON), the flat key-value
field record of the parsed config, and the template files present on disk. -/
structure CliEnv where
  parsedConfig : Option (List (String × String))
  availableTemplates : List String
  deriving DecidableEq

/-- Modelled from the spec: the required configuration fields of the
exercise generator's documented config format. -/
def requiredFields : List String :=
  ["topic_name", "difficulty_level", "tasks", "sample_data"]

/-- Modelled from the spec: the two fixed template files the generator reads. -/
def requiredTemplates : List String :=
  ["exercise_template.ipynb", "solution_template.md"]

/-- Modelled from the spec: build the configuration record from the parsed
flat key-value fields (first value wins, a missing value is empty —
unreachable after validation). -/
def configOfFields (fields : List (String × String)) : ExerciseConfig :=
  { topic_name := ((fields.find? (fun p => p.1 == "topic_name")).map Prod.snd).getD ""
    difficulty_level :=
      ((fields.find? (fun p => p.1 == "difficulty_level")).map Prod.snd).getD ""
    tasks := ((fields.find? (fun p => p.1 == "tasks")).map Prod.snd).toList
    sample_data :=
      ((fields.find? (fun p => p.1 == "sample_data")).map Prod.snd).getD "" }

/-- Modelled from the spec: a single one-shot run of
`exercise_generator.py <config.json>` — parse the JSON, validate the
required fields, check the template files, then substitute and emit the two
output files; abort with the first applicable error otherwise, with no
retry or recovery. -/
def run_script (env : CliEnv) : Except ScriptError (List (String × String)) :=
  match env.parsedConfig with
  | none => Except.error ScriptError.malformed_json
  | some fields =>
    match requiredFields.find? (fun f => !fields.any (fun p => p.1 == f)) with
    | some f => Except.error (ScriptError.missing_field f)
    | none =>
      match requiredTemplates.find? (fun t => !env.availableTemplates.any (fun p => p == t)) with
      | some t => Except.error (ScriptError.missing_template t)
      | none => Except.ok (generate_exercise (configOfFields fields))

/-- Modelled from the spec: the process exit code of a run. -/
def exit_code (env : CliEnv) : Nat :=
  match run_script env with
  | Except.ok _ => 0
  | Except.error _ => 1

/-- The declarative well-formedness of a script input: the configuration
parses, every required field is present, and every required template file
exists. -/
def WellFormedInput (env : CliEnv) : Prop :=
  ∃ fields, env.parsedConfig = some fields ∧
    (∀ f ∈ requiredFields, ∃ p ∈ fields, p.1 = f) ∧
    (∀ t ∈ requiredTemplates, t ∈ env.availableTemplates)

/-- **C6.** A script run exits with code 0 exactly on well-formed input
(configuration parses, required fields present, template files present),
and on any other input it exits with code 1 together with an error of one
of the three documented kinds — malformed JSON, missing required field,
missing template file — carrying a non-empty message. -/
theorem exit_code_spec (env : CliEnv) :
    (exit_code env = 0 ↔ WellFormedInput env) ∧
    (¬WellFormedInput env → exit_code env = 1 ∧
      ∃ e : ScriptError, run_script env = Except.error e ∧ errorMessage e ≠ "") := by
  have hmsg : ∀ e : ScriptError, errorMessage e ≠ "" := by
    intro e
    cases e with
    | malformed_json => decide
    | missing_field name =>
      intro h
      have hd := congrArg String.data h
      simp [errorMessage] at hd
    | missing_template path =>
      intro h
      have hd := congrArg String.data h
      simp [errorMessage] at hd
  have hmain : exit_code env = 0 ↔ WellFormedInput env := by
    unfold exit_code run_script WellFormedInput
    cases hp : env.parsedConfig with
    | none => simp
    | some fields =>
      simp only [Option.some.injEq]
      cases hf : requiredFields.find? (fun f => !fields.any (fun p => p.1 == f)) with
      | some f =>
        simp only []
        constructor
        · intro h
          cases h
        · rintro ⟨fs, rfl, hfields, -⟩
          have hb := List.find?_some hf
          have hfin := List.mem_of_find?_eq_some hf
          obtain ⟨p, hp2, hp3⟩ := hfields f hfin
          have hpin : (fields.any fun p => p.1 == f) = true :=
            List.any_eq_true.mpr ⟨p, hp2, beq_iff_eq.mpr hp3⟩
          rw [hpin] at hb
          simp at hb
      | none =>
        cases ht : requiredTemplates.find?
            (fun t => !env.availableTemplates.any (fun p => p == t)) with
        | some t =>
          simp only []
          constructor
          · intro h
            cases h
          · rintro ⟨fs, rfl, -, htmpl⟩
            have hb := List.find?_some ht
            have htin := List.mem_of_find?_eq_some ht
            have hpin : (env.availableTemplates.any fun p => p == t) = true :=
              List.any_eq_true.mpr ⟨t, htmpl t htin, by simp⟩
            rw [hpin] at hb
            simp at hb
        | none =>
          simp only []
          constructor
          · intro _
            refine ⟨fields, rfl, ?_, ?_⟩
            · intro f hfin
              have := List.find?_eq_none.mp hf f hfin
              simp only [Bool.not_eq_eq_eq_not, Bool.not_true, Bool.not_eq_true',
                Bool.not_eq_false] at this
              obtain ⟨p, hp2, hp3⟩ := List.any_eq_true.mp this
              exact ⟨p, hp2, by simpa using hp3⟩
            · intro t htin
              have := List.find?_eq_none.mp ht t htin
              simp only [Bool.not_eq_eq_eq_not, Bool.not_true, Bool.not_eq_true',
                Bool.not_eq_false] at this
              obtain ⟨p, hp2, hp3⟩ := List.any_eq_true.mp this
              exact (beq_iff_eq.mp hp3) ▸ hp2
          · intro _
            trivial
  refine ⟨hmain, ?_⟩
  intro hnwf
  cases hr : run_script env with
  | ok v =>
    exfalso
    apply hnwf
    apply hmain.mp
    unfold exit_code
    rw [hr]
  | error e =>
    refine ⟨?_, e, rfl, hmsg e⟩
    unfold exit_code
    rw [hr]

/-- A well-formed concrete environment for the witness. -/
def goodEnv : CliEnv :=
  ⟨some [("topic_name", "Deques Advanced"), ("difficulty_level", "intermediate"),
    ("tasks", "Create task queue"), ("sample_data", "data = [1, 2, 3]")],
   ["exercise_template.ipynb", "solution_template.md"]⟩

/-- A malformed-JSON concrete environment for the witness. -/
def badEnv : CliEnv := ⟨none, []⟩

/-- Witness for C6: the well-formed environment exits 0; the malformed one
exits 1 with a reported error. -/
theorem exit_code_spec_witness :
    exit_code goodEnv = 0 ∧
    (exit_code badEnv = 1 ∧
      ∃ e : ScriptError, run_script badEnv = Except.error e ∧ errorMessage e ≠ "") := by
  constructor
  · exact (exit_code_spec goodEnv).1.mpr
      ⟨_, rfl, by decide, by decide⟩
  · exact (exit_code_spec badEnv).2
      (by rintro ⟨fs, h, -, -⟩; cases h)

end PyDS
